import Mathlib

/-!
Verification development for the PharmaChain backend (FastAPI + MongoDB +
Ethereum ledger client).  The Python sources under `backend/app` are embedded
shallowly: pure helpers (`utils/hashing.py`, `utils/validation.py`) become Lean
functions, the route handlers (`routes/drugs.py`, `routes/verification.py`,
`routes/audit.py`) become explicit state-passing functions over a record store
model, and collaborator calls (Web3 ledger, MongoDB) are passed in as explicit
inputs.  Machine integers are modelled as `Nat`/`Int` with explicit `% 2^32`
where 32-bit overflow matters (SHA-256); fallible code returns `Except`.
-/

namespace PharmaChain

/-! ## Python string primitives -/

/-- Python `str.lower()` on one character.  Exact on ASCII; the repository only ever
lowercases ASCII ingredient names, wallet addresses and hex digests. -/
def charLower (c : Char) : Char :=
  if 65 ≤ c.toNat ∧ c.toNat ≤ 90 then Char.ofNat (c.toNat + 32) else c

/-- Python `str.lower()` (exact on ASCII input). -/
def strLower (s : String) : String :=
  String.mk (s.data.map charLower)

/-- Lexicographic `≤` on code points, i.e. Python string comparison as used by
`sorted` and by `json.dumps(sort_keys=True)`. -/
def chListLe : List Char → List Char → Bool
  | [], _ => true
  | _ :: _, [] => false
  | a :: as, b :: bs =>
    if a.toNat < b.toNat then true
    else if b.toNat < a.toNat then false
    else chListLe as bs

/-- Python `s <= t` for strings. -/
def pyStrLe (a b : String) : Bool :=
  chListLe a.data b.data

/-! ## SHA-256 (`hashlib.sha256`), over byte lists, 32-bit words as `Nat % 2^32` -/

/-- The modulus 2^32 for 32-bit words. -/
def M32 : Nat := 4294967296

/-- Rotate a 32-bit word right by `n`. -/
def rotr (n x : Nat) : Nat :=
  ((x >>> n) ||| (x <<< (32 - n))) % M32

/-- The eight 32-bit working variables of SHA-256. -/
structure Sha256State where
  a : Nat
  b : Nat
  c : Nat
  d : Nat
  e : Nat
  f : Nat
  g : Nat
  h : Nat
deriving Repr, DecidableEq

/-- SHA-256 round constants (FIPS 180-4), written in decimal. -/
def sha256K : List Nat :=
  [1116352408, 1899447441, 3049323471, 3921009573, 961987163,
   1508970993, 2453635748, 2870763221, 3624381080, 310598401,
   607225278, 1426881987, 1925078388, 2162078206, 2614888103,
   3248222580, 3835390401, 4022224774, 264347078, 604807628,
   770255983, 1249150122, 1555081692, 1996064986, 2554220882,
   2821834349, 2952996808, 3210313671, 3336571891, 3584528711,
   113926993, 338241895, 666307205, 773529912, 1294757372,
   1396182291, 1695183700, 1986661051, 2177026350, 2456956037,
   2730485921, 2820302411, 3259730800, 3345764771, 3516065817,
   3600352804, 4094571909, 275423344, 430227734, 506948616,
   659060556, 883997877, 958139571, 1322822218, 1537002063,
   1747873779, 1955562222, 2024104815, 2227730452, 2361852424,
   2428436474, 2756734187, 3204031479, 3329325298]

/-- SHA-256 initial hash value (FIPS 180-4), written in decimal. -/
def sha256Init : Sha256State :=
  ⟨1779033703, 3144134277, 1013904242, 2773480762,
   1359893119, 2600822924, 528734635, 1541459225⟩

/-- One SHA-256 compression round, consuming a (constant, schedule word) pair. -/
def sha256Round (st : Sha256State) (kw : Nat × Nat) : Sha256State :=
  let s1 := (rotr 6 st.e) ^^^ (rotr 11 st.e) ^^^ (rotr 25 st.e)
  let ch := (st.e &&& st.f) ^^^ ((st.e ^^^ 4294967295) &&& st.g)
  let t1 := (st.h + s1 + ch + kw.1 + kw.2) % M32
  let s0 := (rotr 2 st.a) ^^^ (rotr 13 st.a) ^^^ (rotr 22 st.a)
  let mj := (st.a &&& st.b) ^^^ (st.a &&& st.c) ^^^ (st.b &&& st.c)
  let t2 := (s0 + mj) % M32
  ⟨(t1 + t2) % M32, st.a, st.b, st.c, (st.d + t1) % M32, st.e, st.f, st.g⟩

/-- One step of the message-schedule extension: appends word `W[n]` computed
from `W[n-2], W[n-7], W[n-15], W[n-16]`. -/
def sha256ExtendStep (w : List Nat) : List Nat :=
  let n := w.length
  let w15 := w.getD (n - 15) 0
  let w2 := w.getD (n - 2) 0
  let w16 := w.getD (n - 16) 0
  let w7 := w.getD (n - 7) 0
  let s0 := (rotr 7 w15) ^^^ (rotr 18 w15) ^^^ (w15 >>> 3)
  let s1 := (rotr 17 w2) ^^^ (rotr 19 w2) ^^^ (w2 >>> 10)
  w ++ [(w16 + s0 + w7 + s1) % M32]

/-- Extend the 16 block words to the full 64-word schedule (48 steps). -/
def sha256Schedule : Nat → List Nat → List Nat
  | 0, w => w
  | n + 1, w => sha256Schedule n (sha256ExtendStep w)

/-- Compress one 16-word block into the running hash state. -/
def sha256Compress (hs : Sha256State) (block : List Nat) : Sha256State :=
  let w := sha256Schedule 48 block
  let st := (sha256K.zip w).foldl sha256Round hs
  ⟨(hs.a + st.a) % M32, (hs.b + st.b) % M32, (hs.c + st.c) % M32,
   (hs.d + st.d) % M32, (hs.e + st.e) % M32, (hs.f + st.f) % M32,
   (hs.g + st.g) % M32, (hs.h + st.h) % M32⟩

/-- Fold the compression function over all 16-word blocks.  The first argument
is fuel (any bound on the number of blocks); recursion is structural on it so
that concrete digests reduce in the kernel. -/
def sha256Blocks : Nat → Sha256State → List Nat → Sha256State
  | 0, hs, _ => hs
  | _ + 1, hs, [] => hs
  | n + 1, hs, ws => sha256Blocks n (sha256Compress hs (ws.take 16)) (ws.drop 16)

/-- Big-endian 64-bit encoding of the message bit length. -/
def be64 (n : Nat) : List Nat :=
  [(n >>> 56) &&& 255, (n >>> 48) &&& 255, (n >>> 40) &&& 255,
   (n >>> 32) &&& 255, (n >>> 24) &&& 255, (n >>> 16) &&& 255,
   (n >>> 8) &&& 255, n &&& 255]

/-- SHA-256 padding: `0x80`, zeros to 56 mod 64, then the 64-bit bit length. -/
def sha256Pad (msg : List Nat) : List Nat :=
  let padLen := (119 - (msg.length % 64)) % 64
  msg ++ [128] ++ List.replicate padLen 0 ++ be64 (8 * msg.length)

/-- Group bytes into big-endian 32-bit words. -/
def bytesToWords : List Nat → List Nat
  | b0 :: b1 :: b2 :: b3 :: rest =>
    (((b0 * 256 + b1) * 256 + b2) * 256 + b3) :: bytesToWords rest
  | _ => []

/-- One lowercase hex digit. -/
def hexDigit (n : Nat) : Char :=
  Char.ofNat (if n < 10 then 48 + n else 87 + n)

/-- A 32-bit word as 8 lowercase hex characters. -/
def toHex8 (n : Nat) : String :=
  String.mk ((List.range 8).map fun i => hexDigit ((n >>> (28 - 4 * i)) &&& 15))

/-- Python `hashlib.sha256(bytes).hexdigest()`: the 64-character lowercase hex
SHA-256 digest of a byte list. -/
def sha256Hex (msg : List Nat) : String :=
  let ws := bytesToWords (sha256Pad msg)
  let hs := sha256Blocks (ws.length + 1) sha256Init ws
  String.join ([hs.a, hs.b, hs.c, hs.d, hs.e, hs.f, hs.g, hs.h].map toHex8)

/-- UTF-8 encoding of one character (`str.encode("utf-8")`, per code point). -/
def utf8EncodeChar (c : Char) : List Nat :=
  let n := c.toNat
  if n < 128 then [n]
  else if n < 2048 then [192 ||| (n >>> 6), 128 ||| (n &&& 63)]
  else if n < 65536 then
    [224 ||| (n >>> 12), 128 ||| ((n >>> 6) &&& 63), 128 ||| (n &&& 63)]
  else
    [240 ||| (n >>> 18), 128 ||| ((n >>> 12) &&& 63),
     128 ||| ((n >>> 6) &&& 63), 128 ||| (n &&& 63)]

/-- Python `str.encode("utf-8")` as a byte list. -/
def utf8Encode (s : String) : List Nat :=
  (s.data.map utf8EncodeChar).flatten

/-! ## JSON values and `json.dumps(..., sort_keys=True, separators=(",", ":"))`

A composition document, as received by `utils/hashing.py`, is the Python dict
`\x7b"ingredients": [ingredient, ...]\x7d` (the shape produced by
`DrugComposition.dict()` in `app/schemas.py`).  Each ingredient is a Python
dict, modelled as an insertion-ordered association list so that key order in
the *input* is represented; `json.dumps(sort_keys=True)` then sorts keys. -/

/-- A scalar JSON value appearing in an ingredient dict: a string, a number
(Python float, carried exactly as a rational), or `None`/`null`. -/
inductive Scalar where
  | str : String → Scalar
  | num : ℚ → Scalar
  | null : Scalar
deriving Repr, DecidableEq

/-- One ingredient: a Python dict, i.e. an insertion-ordered association list
with (in well-formed inputs) pairwise-distinct keys. -/
def Ingredient : Type := List (String × Scalar)

instance : DecidableEq Ingredient := by
  unfold Ingredient
  infer_instance

/-- A composition document: the value of its single `"ingredients"` key. -/
structure Composition where
  ingredients : List Ingredient
deriving DecidableEq

/-- Four lowercase hex digits, for `\uXXXX` escapes. -/
def hex4 (n : Nat) : String :=
  String.mk [hexDigit ((n >>> 12) &&& 15), hexDigit ((n >>> 8) &&& 15),
             hexDigit ((n >>> 4) &&& 15), hexDigit (n &&& 15)]

/-- JSON escaping of one character as `json.dumps` does with the default
`ensure_ascii=True`: `"` and `\` get a backslash, the usual control-character
short escapes apply, every other character below `0x20` or above `0x7e`
becomes `\uXXXX` (astral code points as surrogate pairs). -/
def jsonEscapeChar (c : Char) : String :=
  if c = '"' then "\\\""
  else if c = '\\' then "\\\\"
  else if c = Char.ofNat 10 then "\\n"
  else if c = Char.ofNat 13 then "\\r"
  else if c = Char.ofNat 9 then "\\t"
  else if c = Char.ofNat 8 then "\\b"
  else if c = Char.ofNat 12 then "\\f"
  else if c.toNat < 32 then "\\u" ++ hex4 c.toNat
  else if c.toNat < 127 then String.mk [c]
  else if c.toNat < 65536 then "\\u" ++ hex4 c.toNat
  else
    let v := c.toNat - 65536
    "\\u" ++ hex4 (55296 + (v >>> 10)) ++ "\\u" ++ hex4 (56320 + (v &&& 1023))

/-- A JSON string literal: quotes around the escaped characters. -/
def jsonQuote (s : String) : String :=
  "\"" ++ String.join (s.data.map jsonEscapeChar) ++ "\""

/-- Pad a digit string on the left with zeros to length `k`. -/
def padZeros (k : Nat) (s : String) : String :=
  String.mk (List.replicate (k - s.length) '0') ++ s

/-- Python `repr(x)` for a float carried as a rational: renders integral
values as `n.0` and finite decimal fractions with their shortest exact digit
string, which is `repr`'s output for every float whose shortest round-trip
representation is a plain decimal (all values occurring in this repository).
Rationals outside that range (never produced by the routes, whose numbers
come from JSON decimals) fall back to a fraction marker. -/
def pyFloatRepr (x : ℚ) : String :=
  let sign := if x < 0 then "-" else ""
  let a := |x|
  if a.den = 1 then sign ++ toString a.num.natAbs ++ ".0"
  else
    match (List.range 17).find? (fun k => (a * (10 : ℚ) ^ (k + 1)).den = 1) with
    | some k =>
      let kk := k + 1
      let scaled := (a * (10 : ℚ) ^ kk).num.natAbs
      sign ++ toString (scaled / 10 ^ kk) ++ "." ++
        padZeros kk (toString (scaled % 10 ^ kk))
    | none => sign ++ toString a.num.natAbs ++ "div" ++ toString a.den

/-- Serialize one scalar value as `json.dumps` would. -/
def dumpScalar : Scalar → String
  | .str s => jsonQuote s
  | .num q => pyFloatRepr q
  | .null => "null"

/-! ### Python `sorted` (stable) -/

/-- Insert `x` into `l` before the first element `y` with `le x y`; the
insertion step of a stable insertion sort. -/
def insortInsert (le : α → α → Bool) (x : α) : List α → List α
  | [] => [x]
  | y :: ys => if le x y then x :: y :: ys else y :: insortInsert le x ys

/-- Stable insertion sort.  Python's `sorted` is a stable sort, and every
stable sort of a list under the same total preorder yields the same output,
so this models `sorted(l, key=...)` exactly. -/
def insort (le : α → α → Bool) : List α → List α
  | [] => []
  | x :: xs => insortInsert le x (insort le xs)

/-! ### `utils/hashing.py` -/

/-- Python `x.get("name", "")` on an ingredient dict, as used by the sort key in
`normalize_composition` (a non-string value under `"name"` would raise in
Python; the model returns `""` there and no theorem depends on that case). -/
def ingName (ing : Ingredient) : String :=
  match ing.lookup "name" with
  | some (.str s) => s
  | _ => ""

/-- The sort key `lambda x: x.get("name", "").lower()`. -/
def ingSortKey (ing : Ingredient) : String :=
  strLower (ingName ing)

/-- Serialize one ingredient dict with keys sorted lexicographically and
compact separators, exactly as `json.dumps(..., sort_keys=True,
separators=(",", ":"))` renders an object. -/
def dumpIngredient (ing : Ingredient) : String :=
  "\x7b" ++
    String.intercalate ","
      ((insort (fun kv kv' => pyStrLe kv.1 kv'.1) ing).map
        (fun kv => jsonQuote kv.1 ++ ":" ++ dumpScalar kv.2)) ++
  "\x7d"

/-- Source `normalize_composition` (utils/hashing.py:10-29): sort the ingredient
list by lowercased name (Python's stable `sorted`), then dump the whole
composition dict — whose only key is `"ingredients"` — with sorted keys and
compact separators. -/
def normalize_composition (c : Composition) : String :=
  "\x7b\"ingredients\":[" ++
    String.intercalate ","
      ((insort (fun i i' => pyStrLe (ingSortKey i) (ingSortKey i')) c.ingredients).map
        dumpIngredient) ++
  "]\x7d"

/-- Source `generate_composition_hash` (utils/hashing.py:32-60): SHA-256 of the
UTF-8 bytes of the normalized composition, as lowercase hex. -/
def generate_composition_hash (c : Composition) : String :=
  sha256Hex (utf8Encode (normalize_composition c))

/-- Source `verify_composition_hash` (utils/hashing.py:63-75): recompute and compare
case-insensitively. -/
def verify_composition_hash (c : Composition) (expected : String) : Bool :=
  strLower (generate_composition_hash c) == strLower expected

/-! ### `utils/validation.py` -/

/-- Round half to even, as Python's float formatting does. -/
def roundHalfEven (x : ℚ) : ℤ :=
  let f := ⌊x⌋
  let r := x - f
  if r < 1 / 2 then f else if 1 / 2 < r then f + 1 else if 2 ∣ f then f else f + 1

/-- Python `f"..{x:.1f}.."`: one decimal digit, rounding half to even. -/
def fmt1f (x : ℚ) : String :=
  let n := roundHalfEven (x * 10)
  let sign := if n < 0 then "-" else ""
  let m := n.natAbs
  sign ++ toString (m / 10) ++ "." ++ toString (m % 10)

/-- Python `ing["name"]` lowered, as `validate_composition` keys its comprehensions
(a missing or non-string name would raise in Python; the model is only applied
to ingredients carrying string names). -/
def loweredName (ing : Ingredient) : String :=
  strLower (ingName ing)

/-- The `validation_details` dict built by `validate_composition`.  The
missing/extra name lists are produced from Python sets, so they are modelled
as finite sets. -/
structure ValidationDetails where
  matchPercentage : ℚ
  missingIngredients : Finset String
  extraIngredients : Finset String
  totalProvidedIngredients : Nat
  totalExpectedIngredients : Nat
deriving DecidableEq

/-- Source `validate_composition` (utils/validation.py:11-72): build lowercased name
sets of the submitted and reference ingredients, compute missing / extra /
common, score `matchPercentage = 100·|common|/|reference|` (0 for an empty
reference), and accept iff the percentage is at least 90 AND nothing is
missing. -/
def validate_composition (provided dataset : Composition) :
    Bool × String × ValidationDetails :=
  let provided_names : Finset String :=
    (provided.ingredients.map loweredName).toFinset
  let dataset_names : Finset String :=
    (dataset.ingredients.map loweredName).toFinset
  let missing := dataset_names \ provided_names
  let extra := provided_names \ dataset_names
  let common := provided_names ∩ dataset_names
  let match_percentage : ℚ :=
    if 0 < dataset_names.card then
      ((common.card : ℚ) / (dataset_names.card : ℚ)) * 100
    else 0
  let is_valid : Bool := decide (90 ≤ match_percentage) && decide (missing.card = 0)
  let message :=
    if is_valid then
      "Composition validated successfully (" ++ fmt1f match_percentage ++ "% match)"
    else
      "Composition validation failed (" ++ fmt1f match_percentage ++ "% match)"
  (is_valid, message,
   ⟨match_percentage, missing, extra, provided_names.card, dataset_names.card⟩)

/-! ## Collaborator data (Ledger snapshot, ownership history, Mongo documents) -/

/-- The successful result of the on-chain `verifyDrug` call as repackaged by
`BlockchainService.verify_drug` (utils/blockchain.py:372-403). -/
structure ChainRecord where
  isGenuine : Bool
  drugName : String
  manufacturer : String
  compositionHash : String
  manufactureDate : Nat
  expiryDate : Nat
  currentOwner : String
  transferCount : Nat
deriving DecidableEq

/-- One ownership-history record as formatted by
`BlockchainService.get_drug_history`.  `fromAddr`/`toAddr` model the `from` /
`to` dict keys. -/
structure OwnershipRecord where
  fromAddr : String
  toAddr : String
  timestamp : Nat
  location : String
  fromRole : String
  toRole : String
deriving DecidableEq

/-- A `drug_composition_storage` document as inserted by `register_drug`
(routes/drugs.py:154-165) and read back by verification and audit. -/
structure StorageDoc where
  batchId : String
  drugName : String
  fullComposition : Option Composition
  compositionHash : String
  manufacturer : String
  manufactureDate : Nat
  expiryDate : Nat
  registrationTimestamp : Nat
deriving DecidableEq

/-! ### `routes/verification.py` -/

/-- The all-zero address sentinel checked by the zero-address rule. -/
def zeroAddress : String := "0x0000000000000000000000000000000000000000"

/-- Anomaly message for an unknown batch id. -/
def notFoundMsg : String := "Batch ID not found on blockchain"

/-- Anomaly message appended when the drug is expired. -/
def expiredMsg : String := "Drug has expired"

/-- Anomaly message appended when `transferCount < 2`. -/
def incompleteChainMsg : String :=
  "Incomplete ownership chain (expected: Manufacturer → Distributor → Pharmacy)"

/-- Anomaly message appended on an off-chain / on-chain hash mismatch. -/
def hashMismatchMsg : String := "Composition hash mismatch - possible tampering"

/-- Anomaly message for a same-role transfer at history index `i`. -/
def sameRoleMsg (i : Nat) : String :=
  "Suspicious transfer: same role transfer at index " ++ toString i

/-- Anomaly message for a transfer to the zero address. -/
def zeroAddressMsg : String := "Suspicious transfer to zero address detected"

/-- The response dict built by the `verify_drug` route. -/
structure Verdict where
  isGenuine : Bool
  status : String
  batchId : String
  drugName : String
  manufacturer : String
  compositionHash : String
  currentOwner : String
  manufactureDate : Nat
  expiryDate : Nat
  transferCount : Nat
  ownershipHistory : List OwnershipRecord
  composition : Option Composition
  anomalies : List String
deriving DecidableEq

/-- The same-role anomaly messages collected by the loop
`for i in range(1, len(ownership_history))` comparing each record's own
`fromRole` against its `toRole` (routes/verification.py:86-89). -/
def sameRoleAnomalies (history : List OwnershipRecord) : List String :=
  (history.enum.drop 1).filterMap
    (fun ir => if ir.2.fromRole = ir.2.toRole then some (sameRoleMsg ir.1) else none)

/-- Source `verify_drug` (routes/verification.py:16-136), the verification engine.
Inputs: the ledger snapshot (`none` models `success: False`, i.e. an unknown
batch or a failed chain call), the fetched ownership history (the route
substitutes `[]` when the history call fails), the off-chain Mongo document,
and the current Unix time.  Mirrors the source rule order exactly: expiry,
chain completeness, hash mismatch, same-role transfers (indices `1..`),
zero-address transfers, then the final GENUINE→INCOMPLETE_CHAIN downgrade. -/
def verify_drug (batchId : String) (chain : Option ChainRecord)
    (history : List OwnershipRecord) (offchain : Option StorageDoc)
    (now : Nat) : Verdict :=
  match chain with
  | none =>
    { isGenuine := false, status := "FAKE", batchId := batchId,
      drugName := "Unknown", manufacturer := "Unknown", compositionHash := "",
      currentOwner := "", manufactureDate := 0, expiryDate := 0,
      transferCount := 0, ownershipHistory := [], composition := none,
      anomalies := [notFoundMsg] }
  | some b =>
    let expired := b.expiryDate < now
    let a1 : List String := if expired then [expiredMsg] else []
    let s1 : String := if expired then "EXPIRED" else "GENUINE"
    let a2 := a1 ++ (if b.transferCount < 2 then [incompleteChainMsg] else [])
    let mismatch : Bool :=
      match offchain with
      | some d => strLower d.compositionHash != strLower b.compositionHash
      | none => false
    let a3 := a2 ++ (if mismatch then [hashMismatchMsg] else [])
    let s3 := if mismatch then "FAKE" else s1
    let a4 := a3 ++ sameRoleAnomalies history
    let zeroRecs := history.filter (fun r => r.toAddr = zeroAddress)
    let a5 := a4 ++ zeroRecs.map (fun _ => zeroAddressMsg)
    let s5 := if zeroRecs.isEmpty then s3 else "FAKE"
    let s6 := if a5 ≠ [] ∧ s5 = "GENUINE" then "INCOMPLETE_CHAIN" else s5
    { isGenuine := s6 == "GENUINE", status := s6, batchId := batchId,
      drugName := b.drugName, manufacturer := b.manufacturer,
      compositionHash := b.compositionHash, currentOwner := b.currentOwner,
      manufactureDate := b.manufactureDate, expiryDate := b.expiryDate,
      transferCount := b.transferCount, ownershipHistory := history,
      composition := (offchain.map StorageDoc.fullComposition).join,
      anomalies := a5 }

/-! ### `routes/drugs.py` -/

/-- A registered user record (`users` collection); only the role matters to
the routes modelled here. -/
structure User where
  role : String
deriving DecidableEq

/-- A `drug_batches` master record as inserted by `register_drug`
(routes/drugs.py:167-177) and mutated by `transfer_ownership`. -/
structure Batch where
  batchId : String
  drugName : String
  manufacturer : String
  currentOwner : String
  status : String
  manufactureDate : Nat
  expiryDate : Nat
  createdAt : Nat
  updatedAt : Nat
deriving DecidableEq

/-- The MongoDB collections touched by the drug routes, as key-indexed
association lists (`drug_composition_storage` and `drug_batches` keyed by
batchId, `users` by walletAddress, `drug_composition_dataset` by drugName,
holding the `standardComposition`). -/
structure DB where
  drug_composition_storage : List (String × StorageDoc)
  drug_batches : List (String × Batch)
  users : List (String × User)
  drug_composition_dataset : List (String × Composition)
deriving DecidableEq

/-- Mongo `update_one`: update the first (in Mongo, the unique) record under key
`k`; no-op when the key is absent. -/
def alistUpdate (k : String) (f : β → β) : List (String × β) → List (String × β)
  | [] => []
  | (k', v) :: rest =>
    if k' == k then (k', f v) :: rest else (k', v) :: alistUpdate k f rest

/-- An `HTTPException`: status code and detail. -/
structure HError where
  statusCode : Nat
  detail : String
deriving DecidableEq

instance {ε α : Type _} [DecidableEq ε] [DecidableEq α] :
    DecidableEq (Except ε α) := fun a b =>
  match a, b with
  | .error e, .error f =>
    if h : e = f then isTrue (congrArg Except.error h)
    else isFalse (fun hh => h ((Except.error.injEq _ _).mp hh))
  | .error _, .ok _ => isFalse (fun hh => Except.noConfusion hh)
  | .ok _, .error _ => isFalse (fun hh => Except.noConfusion hh)
  | .ok a, .ok b =>
    if h : a = b then isTrue (congrArg Except.ok h)
    else isFalse (fun hh => h ((Except.ok.injEq _ _).mp hh))

/-- An `OwnershipTransferRequest`. -/
structure TransferRequest where
  batchId : String
  fromAddress : String
  toAddress : String
  location : String
deriving DecidableEq

/-- The fixed legal-transition table `valid_transfers`
(routes/drugs.py:258-262). -/
def valid_transfers : List (String × String) :=
  [("MANUFACTURER", "DISTRIBUTOR"),
   ("DISTRIBUTOR", "PHARMACY"),
   ("DISTRIBUTOR", "DISTRIBUTOR")]

/-- Source `transfer_ownership` (routes/drugs.py:200-308).  Returns the resulting
store, the HTTP outcome, and whether a transaction was handed to the ledger
client (`blockchain_service.transfer_ownership` reached).  `ledgerOk` is the
success flag of that collaborator call; `now` stands for `datetime.utcnow()`.
The source's statement order is kept: the batch lookup, then the
`update_one` that rewrites `currentOwner`, then the not-found check, the user
lookups (on lowercased addresses), the role-pair check, and only then the
ledger call. -/
def transfer_ownership (db : DB) (req : TransferRequest) (now : Nat)
    (ledgerOk : Bool) : DB × Except HError Unit × Bool :=
  let batch := db.drug_batches.lookup req.batchId
  let batches1 :=
    alistUpdate req.batchId
      (fun b => { b with currentOwner := strLower req.toAddress, updatedAt := now })
      db.drug_batches
  let db1 := { db with drug_batches := batches1 }
  match batch with
  | none => (db1, .error ⟨404, "Batch ID not found"⟩, false)
  | some _ =>
    let fa := strLower req.fromAddress
    let ta := strLower req.toAddress
    match db.users.lookup fa, db.users.lookup ta with
    | some fu, some tu =>
      if valid_transfers.contains (fu.role, tu.role) then
        if ledgerOk then (db1, .ok (), true)
        else (db1, .error ⟨500, "Blockchain transfer failed"⟩, true)
      else
        (db1, .error ⟨403, "Invalid transfer: " ++ fu.role ++ " cannot transfer to " ++ tu.role⟩,
         false)
    | _, _ => (db1, .error ⟨404, "One or both users not found"⟩, false)

/-- A `DrugRegistrationRequest`. -/
structure RegisterRequest where
  batchId : String
  drugName : String
  composition : Composition
  manufactureDate : Nat
  expiryDate : Nat
  manufacturerAddress : String
deriving DecidableEq

/-- The success payload of `register_drug`. -/
structure RegisterOk where
  batchId : String
  compositionHash : String
deriving DecidableEq

/-- Source `register_drug` (routes/drugs.py:71-197): reject a duplicate batch id
(400), require a registered MANUFACTURER (403), validate the composition
against the dataset entry ONLY IF one exists (400 on failure), hash the
composition, hand the registration to the ledger client (500 on failure),
then insert the storage document and the batch master record. -/
def register_drug (db : DB) (req : RegisterRequest) (now : Nat)
    (ledgerOk : Bool) : DB × Except HError RegisterOk :=
  match db.drug_composition_storage.lookup req.batchId with
  | some _ => (db, .error ⟨400, "Batch ID already exists"⟩)
  | none =>
    match db.users.lookup req.manufacturerAddress with
    | none => (db, .error ⟨403, "Only registered manufacturers can register drugs"⟩)
    | some u =>
      if u.role != "MANUFACTURER" then
        (db, .error ⟨403, "Only registered manufacturers can register drugs"⟩)
      else
        let datasetCheck : Except HError Unit :=
          match db.drug_composition_dataset.lookup req.drugName with
          | some std =>
            let r := validate_composition req.composition std
            if r.1 then .ok ()
            else .error ⟨400, "Composition validation failed: " ++ r.2.1⟩
          | none => .ok ()
        match datasetCheck with
        | .error e => (db, .error e)
        | .ok _ =>
          let hash := generate_composition_hash req.composition
          if ledgerOk then
            let doc : StorageDoc :=
              ⟨req.batchId, req.drugName, some req.composition, hash,
               req.manufacturerAddress, req.manufactureDate, req.expiryDate, now⟩
            let bat : Batch :=
              ⟨req.batchId, req.drugName, strLower req.manufacturerAddress,
               strLower req.manufacturerAddress, "ACTIVE",
               req.manufactureDate, req.expiryDate, now, now⟩
            ({ db with
                drug_composition_storage :=
                  db.drug_composition_storage ++ [(req.batchId, doc)],
                drug_batches := db.drug_batches ++ [(req.batchId, bat)] },
             .ok ⟨req.batchId, hash⟩)
          else (db, .error ⟨500, "Blockchain registration failed"⟩)

/-- The `validate-composition` route response. -/
structure ValidateResponse where
  isValid : Bool
  message : String
  matchPercentage : ℚ
  missingIngredients : Finset String
  extraIngredients : Finset String
deriving DecidableEq

/-- Source `validate_drug_composition` (routes/drugs.py:23-68): 404 when no dataset
entry exists for the drug name, otherwise the validator's result. -/
def validate_drug_composition (db : DB) (drugName : String)
    (comp : Composition) : Except HError ValidateResponse :=
  match db.drug_composition_dataset.lookup drugName with
  | none => .error ⟨404, "No standard composition found for drug: " ++ drugName⟩
  | some std =>
    let r := validate_composition comp std
    .ok ⟨r.1, r.2.1, r.2.2.matchPercentage, r.2.2.missingIngredients,
         r.2.2.extraIngredients⟩

/-! ### `routes/audit.py` -/

/-- The outcome of one `blockchain_service.verify_drug` call as the audit
loop sees it: the awaited call raises, returns `success: False`, or returns a
chain record. -/
inductive LedgerOutcome where
  | raises : LedgerOutcome
  | fail : LedgerOutcome
  | ok : ChainRecord → LedgerOutcome
deriving DecidableEq

/-- The `/api/audit/statistics` response. -/
structure AuditStatistics where
  totalDrugs : Nat
  totalUsers : Nat
  totalTransfers : Nat
  drugsWithAnomalies : Nat
  expiredDrugs : Nat
deriving DecidableEq

/-- The per-drug anomaly test of the audit loop (routes/audit.py:50-61): a
raised or failed ledger call counts, and a successful call counts iff the
reported `transferCount < 2`.  Nothing else is consulted. -/
def auditAnomalyFlag (ledger : String → LedgerOutcome) (d : StorageDoc) : Bool :=
  match ledger d.batchId with
  | .raises => true
  | .fail => true
  | .ok r => r.transferCount < 2

/-- Source `get_audit_statistics` (routes/audit.py:16-76): totals from the store,
`totalTransfers` hard-coded to 0, local expiry count (`expiryDate < now`),
and the anomaly count from `auditAnomalyFlag`. -/
def get_audit_statistics (drugs : List StorageDoc) (usersCount : Nat)
    (ledger : String → LedgerOutcome) (now : Nat) : AuditStatistics :=
  ⟨drugs.length, usersCount, 0,
   (drugs.filter (auditAnomalyFlag ledger)).length,
   (drugs.filter (fun d => decide (d.expiryDate < now))).length⟩

/-! ### `POST /api/verify/batch-verify` (routes/verification.py:169-205) -/

/-- The collaborator state a verification request reads: the ledger snapshot
per batch id (`none` models `success: False`), the per-id history, the per-id
off-chain document, and whether the Mongo lookup raises for that id. -/
structure VerifyEnv where
  chain : String → Option ChainRecord
  history : String → List OwnershipRecord
  offchain : String → Option StorageDoc
  dbRaises : String → Bool

/-- The `verify_drug` route as a fallible call: an unknown batch returns the
FAKE verdict before the Mongo lookup (the source returns at line 39), and an
exception anywhere is re-raised as an HTTP 500. -/
def verify_drug_route (env : VerifyEnv) (now : Nat) (id : String) :
    Except HError Verdict :=
  match env.chain id with
  | none => .ok (verify_drug id none [] none now)
  | some b =>
    if env.dbRaises id then .error ⟨500, "Verification failed: database error"⟩
    else .ok (verify_drug id (some b) (env.history id) (env.offchain id) now)

/-- Attribute lookup on a Python `dict` instance: only the `dict` type's own
methods are attributes; any other name — in particular `isGenuine` and
`status`, which are *keys* of the dict `verify_drug` returns, not attributes —
raises `AttributeError`. -/
def dictAttr (a : String) : Except String Unit :=
  if a ∈ ["clear", "copy", "fromkeys", "get", "items", "keys", "pop",
          "popitem", "setdefault", "update", "values"] then .ok ()
  else .error ("AttributeError: dict object has no attribute " ++ a)

/-- One element of the `batch-verify` results list. -/
structure BatchVerifyItem where
  batchId : String
  isGenuine : Bool
  status : String
  error : Option String
deriving DecidableEq

/-- One iteration of the `batch_verify_drugs` loop: call the `verify_drug`
route, then build the result item by reading `verification.isGenuine` and
`verification.status`.  `verify_drug` returns the plain dict literal of
verification.py:115-129 (routes called as functions return their raw value),
so those attribute reads raise `AttributeError`, which the per-item
`except Exception` handler converts into an ERROR item. -/
def batch_verify_item (env : VerifyEnv) (now : Nat) (id : String) :
    BatchVerifyItem :=
  match verify_drug_route env now id with
  | .error e => ⟨id, false, "ERROR", some e.detail⟩
  | .ok v =>
    match dictAttr "isGenuine", dictAttr "status" with
    | .ok _, .ok _ => ⟨id, v.isGenuine, v.status, none⟩
    | .error e, _ => ⟨id, false, "ERROR", some e⟩
    | _, .error e => ⟨id, false, "ERROR", some e⟩

/-- Source `batch_verify_drugs` (routes/verification.py:169-205): one result per
input id, in order; a failure on one id yields that id's ERROR item only. -/
def batch_verify_drugs (env : VerifyEnv) (now : Nat) (ids : List String) :
    List BatchVerifyItem :=
  ids.map (batch_verify_item env now)

/-- Whether a route outcome is an HTTP 403 (the status the transfer route
reserves for an illegal role transition once both existence checks passed). -/
def resultIs403 : Except HError α → Bool
  | .error e => e.statusCode == 403
  | .ok _ => false

/-! ## Order-theoretic facts about Python string comparison -/

theorem chListLe_total : ∀ a b : List Char, chListLe a b = true ∨ chListLe b a = true := by
  intro a
  induction a with
  | nil => intro b; left; rfl
  | cons x xs ih =>
    intro b
    cases b with
    | nil => right; rfl
    | cons y ys =>
      rcases Nat.lt_trichotomy x.toNat y.toNat with h | h | h
      · left; simp [chListLe, h]
      · have h1 : ¬ x.toNat < y.toNat := by omega
        have h2 : ¬ y.toNat < x.toNat := by omega
        simpa [chListLe, h1, h2] using ih ys
      · right; simp [chListLe, h]

theorem chListLe_antisymm :
    ∀ a b : List Char, chListLe a b = true → chListLe b a = true → a = b := by
  intro a
  induction a with
  | nil =>
    intro b _ hba
    cases b with
    | nil => rfl
    | cons y ys => simp [chListLe] at hba
  | cons x xs ih =>
    intro b hab hba
    cases b with
    | nil => simp [chListLe] at hab
    | cons y ys =>
      rcases Nat.lt_trichotomy x.toNat y.toNat with h | h | h
      · exfalso
        have h2 : ¬ y.toNat < x.toNat := by omega
        simp [chListLe, h, h2] at hba
      · have h1 : ¬ x.toNat < y.toNat := by omega
        have h2 : ¬ y.toNat < x.toNat := by omega
        have hxy : x = y := Char.eq_of_val_eq (UInt32.eq_of_val_eq (Fin.ext h))
        simp only [chListLe, h1, h2, if_neg, if_false] at hab hba
        rw [hxy, ih ys hab hba]
      · exfalso
        have h1 : ¬ x.toNat < y.toNat := by omega
        simp [chListLe, h, h1] at hab

theorem chListLe_trans :
    ∀ a b c : List Char, chListLe a b = true → chListLe b c = true →
      chListLe a c = true := by
  intro a
  induction a with
  | nil => intro b c _ _; rfl
  | cons x xs ih =>
    intro b c hab hbc
    cases b with
    | nil => simp [chListLe] at hab
    | cons y ys =>
      cases c with
      | nil => simp [chListLe] at hbc
      | cons z zs =>
        rcases Nat.lt_trichotomy x.toNat y.toNat with hxy | hxy | hxy <;>
          rcases Nat.lt_trichotomy y.toNat z.toNat with hyz | hyz | hyz
        all_goals
          first
          | (exfalso
             first
             | simp [chListLe, show ¬ x.toNat < y.toNat by omega,
                     show y.toNat < x.toNat by omega] at hab
             | simp [chListLe, show ¬ y.toNat < z.toNat by omega,
                     show z.toNat < y.toNat by omega] at hbc)
          | simp [chListLe, show x.toNat < z.toNat by omega]
          | (have h1 : ¬ x.toNat < y.toNat := by omega
             have h2 : ¬ y.toNat < x.toNat := by omega
             have h3 : ¬ y.toNat < z.toNat := by omega
             have h4 : ¬ z.toNat < y.toNat := by omega
             have h5 : ¬ x.toNat < z.toNat := by omega
             have h6 : ¬ z.toNat < x.toNat := by omega
             simp only [chListLe, h1, h2, if_neg, if_false] at hab
             simp only [chListLe, h3, h4, if_neg, if_false] at hbc
             simp only [chListLe, h5, h6, if_neg, if_false]
             exact ih ys zs hab hbc)

theorem pyStrLe_total (a b : String) : pyStrLe a b = true ∨ pyStrLe b a = true :=
  chListLe_total a.data b.data

theorem pyStrLe_antisymm {a b : String} (hab : pyStrLe a b = true)
    (hba : pyStrLe b a = true) : a = b := by
  cases a; cases b
  exact congrArg String.mk (chListLe_antisymm _ _ hab hba)

theorem pyStrLe_trans {a b c : String} (hab : pyStrLe a b = true)
    (hbc : pyStrLe b c = true) : pyStrLe a c = true :=
  chListLe_trans a.data b.data c.data hab hbc

/-! ## Stable insertion sort: permutation, sortedness, uniqueness -/

theorem insortInsert_perm (le : α → α → Bool) (x : α) (l : List α) :
    List.Perm (insortInsert le x l) (x :: l) := by
  induction l with
  | nil => exact List.Perm.refl _
  | cons y ys ih =>
    by_cases h : le x y = true
    · simp [insortInsert, h]
    · simp only [insortInsert, h, if_false, Bool.false_eq_true]
      exact (ih.cons y).trans (List.Perm.swap x y ys)

theorem insort_perm (le : α → α → Bool) (l : List α) :
    List.Perm (insort le l) l := by
  induction l with
  | nil => exact List.Perm.refl _
  | cons x xs ih => exact (insortInsert_perm le x (insort le xs)).trans (ih.cons x)

theorem insortInsert_pairwise (le : α → α → Bool)
    (htot : ∀ a b, le a b = true ∨ le b a = true)
    (htrans : ∀ a b c, le a b = true → le b c = true → le a c = true)
    (x : α) (l : List α) (hl : l.Pairwise (fun a b => le a b = true)) :
    (insortInsert le x l).Pairwise (fun a b => le a b = true) := by
  induction l with
  | nil => simp [insortInsert]
  | cons y ys ih =>
    rcases List.pairwise_cons.mp hl with ⟨hy, hys⟩
    by_cases h : le x y = true
    · simp only [insortInsert, h, if_true]
      refine List.pairwise_cons.mpr ⟨?_, hl⟩
      intro b hb
      rcases List.mem_cons.mp hb with rfl | hb
      · exact h
      · exact htrans x y b h (hy b hb)
    · have hyx : le y x = true := (htot x y).resolve_left h
      simp only [insortInsert, h, if_false, Bool.false_eq_true]
      refine List.pairwise_cons.mpr ⟨?_, ih hys⟩
      intro b hb
      have hb' : b ∈ x :: ys := (insortInsert_perm le x ys).mem_iff.mp hb
      rcases List.mem_cons.mp hb' with rfl | hb'
      · exact hyx
      · exact hy b hb'

theorem insort_pairwise (le : α → α → Bool)
    (htot : ∀ a b, le a b = true ∨ le b a = true)
    (htrans : ∀ a b c, le a b = true → le b c = true → le a c = true)
    (l : List α) : (insort le l).Pairwise (fun a b => le a b = true) := by
  induction l with
  | nil => simp [insort]
  | cons x xs ih => exact insortInsert_pairwise le htot htrans x (insort le xs) ih

/-- Two lists that are permutations of one another, both sorted under `R`,
with `R` antisymmetric on the members of the first, are equal. -/
theorem perm_pairwise_eq {R : α → α → Prop} :
    ∀ {l₁ l₂ : List α}, List.Perm l₁ l₂ → l₁.Pairwise R → l₂.Pairwise R →
      (∀ a ∈ l₁, ∀ b ∈ l₁, R a b → R b a → a = b) → l₁ = l₂ := by
  intro l₁
  induction l₁ with
  | nil =>
    intro l₂ hp _ _ _
    exact hp.nil_eq
  | cons a t₁ ih =>
    intro l₂ hp h₁ h₂ hanti
    cases l₂ with
    | nil => exact absurd hp.symm.nil_eq (by simp)
    | cons b t₂ =>
      by_cases hab : a = b
      · subst hab
        have ht : t₁ = t₂ :=
          ih hp.cons_inv (List.pairwise_cons.mp h₁).2 (List.pairwise_cons.mp h₂).2
            (fun x hx y hy => hanti x (List.mem_cons_of_mem a hx) y (List.mem_cons_of_mem a hy))
        rw [ht]
      · exfalso
        have hbmem : b ∈ a :: t₁ := hp.mem_iff.mpr (List.mem_cons_self b t₂)
        have hamem : a ∈ b :: t₂ := hp.mem_iff.mp (List.mem_cons_self a t₁)
        have hb₁ : b ∈ t₁ := by
          rcases List.mem_cons.mp hbmem with h | h
          · exact absurd h.symm hab
          · exact h
        have ha₂ : a ∈ t₂ := by
          rcases List.mem_cons.mp hamem with h | h
          · exact absurd h hab
          · exact h
        have hRab : R a b := (List.pairwise_cons.mp h₁).1 b hb₁
        have hRba : R b a := (List.pairwise_cons.mp h₂).1 a ha₂
        exact hab (hanti a (List.mem_cons_self a t₁) b (List.mem_cons_of_mem a hb₁) hRab hRba)

/-- Sorting by a key that is pairwise distinct on the input produces the same
list from any permutation of that input. -/
theorem insort_eq_of_perm (key : α → String) {l₁ l₂ : List α}
    (hperm : List.Perm l₁ l₂) (hnd : (l₁.map key).Nodup) :
    insort (fun a b => pyStrLe (key a) (key b)) l₁ =
      insort (fun a b => pyStrLe (key a) (key b)) l₂ := by
  set le : α → α → Bool := fun a b => pyStrLe (key a) (key b) with hle
  have htot : ∀ a b, le a b = true ∨ le b a = true := fun a b => pyStrLe_total _ _
  have htrans : ∀ a b c, le a b = true → le b c = true → le a c = true :=
    fun a b c hab hbc => pyStrLe_trans hab hbc
  apply perm_pairwise_eq (R := fun a b => le a b = true)
  · exact ((insort_perm le l₁).trans hperm).trans (insort_perm le l₂).symm
  · exact insort_pairwise le htot htrans l₁
  · exact insort_pairwise le htot htrans l₂
  · intro a ha b hb hab hba
    have ha' : a ∈ l₁ := (insort_perm le l₁).mem_iff.mp ha
    have hb' : b ∈ l₁ := (insort_perm le l₁).mem_iff.mp hb
    exact List.inj_on_of_nodup_map hnd ha' hb' (pyStrLe_antisymm hab hba)

/-- Stable sorting of elementwise-related lists whose related elements carry
equal sort keys yields elementwise-related results. -/
theorem insort_forall₂ {P : α → α → Prop} (key : α → String)
    (hkey : ∀ a b, P a b → key a = key b) :
    ∀ {l₁ l₂ : List α}, List.Forall₂ P l₁ l₂ →
      List.Forall₂ P (insort (fun a b => pyStrLe (key a) (key b)) l₁)
        (insort (fun a b => pyStrLe (key a) (key b)) l₂) := by
  have hstep : ∀ {x₁ x₂ : α} {l₁ l₂ : List α}, P x₁ x₂ →
      List.Forall₂ P l₁ l₂ →
      List.Forall₂ P (insortInsert (fun a b => pyStrLe (key a) (key b)) x₁ l₁)
        (insortInsert (fun a b => pyStrLe (key a) (key b)) x₂ l₂) := by
    intro x₁ x₂ l₁ l₂ hx h
    induction h with
    | nil => exact List.Forall₂.cons hx List.Forall₂.nil
    | cons hy htail ih =>
      rename_i y₁ y₂ t₁ t₂
      have hky : pyStrLe (key x₁) (key y₁) = pyStrLe (key x₂) (key y₂) := by
        rw [hkey _ _ hx, hkey _ _ hy]
      by_cases hc : pyStrLe (key x₂) (key y₂) = true
      · simp only [insortInsert, hky, hc, if_true]
        exact List.Forall₂.cons hx (List.Forall₂.cons hy htail)
      · simp only [insortInsert, hky, hc, if_false, Bool.false_eq_true]
        exact List.Forall₂.cons hy ih
  intro l₁ l₂ h
  induction h with
  | nil => exact List.Forall₂.nil
  | cons hx htail ih => exact hstep hx ih

/-- On a dict (distinct keys), `lookup` is insensitive to entry order. -/
theorem lookup_eq_of_perm {β : Type _} {l₁ l₂ : List (String × β)} (k : String)
    (hperm : List.Perm l₁ l₂) (hnd : (l₁.map Prod.fst).Nodup) :
    l₁.lookup k = l₂.lookup k := by
  induction hperm with
  | nil => rfl
  | cons x h ih =>
    rename_i t₁ t₂
    have hnd' : (t₁.map Prod.fst).Nodup := by
      simp only [List.map_cons, List.nodup_cons] at hnd
      exact hnd.2
    cases x with
    | mk xk xv =>
      by_cases hk : k == xk
      · simp [List.lookup, hk]
      · simp only [List.lookup, hk]
        exact ih hnd'
  | swap x y l =>
    cases x with
    | mk xk xv =>
      cases y with
      | mk yk yv =>
        have hxy : xk ≠ yk := by
          simp only [List.map_cons, List.nodup_cons, List.mem_cons, List.mem_map] at hnd
          exact fun h => hnd.1 (Or.inl h.symm)
        by_cases hx : k == xk
        · have hkx : k = xk := by simpa using hx
          have hy : (k == yk) = false := by
            subst hkx
            simpa using hxy
          simp [List.lookup, hx, hy]
        · by_cases hy : k == yk
          · simp [List.lookup, hx, hy]
          · simp [List.lookup, hx, hy]
  | trans h₁ h₂ ih₁ ih₂ =>
    rename_i la lb lc
    have hndb : (lb.map Prod.fst).Nodup := ((h₁.map Prod.fst).nodup_iff).mp hnd
    exact (ih₁ hnd).trans (ih₂ hndb)

/-- The ingredient sort key only reads the `"name"` entry, so it is
insensitive to a key permutation of the ingredient dict. -/
theorem ingSortKey_eq_of_perm {i₁ i₂ : Ingredient} (hperm : List.Perm i₁ i₂)
    (hnd : (i₁.map Prod.fst).Nodup) : ingSortKey i₁ = ingSortKey i₂ := by
  unfold ingSortKey ingName
  rw [lookup_eq_of_perm "name" hperm hnd]

/-- Serialization `json.dumps(sort_keys=True)` of an ingredient dict is insensitive to a
permutation of the dict's (distinct-keyed) entries. -/
theorem dumpIngredient_eq_of_perm {i₁ i₂ : Ingredient} (hperm : List.Perm i₁ i₂)
    (hnd : (i₁.map Prod.fst).Nodup) : dumpIngredient i₁ = dumpIngredient i₂ := by
  unfold dumpIngredient
  rw [insort_eq_of_perm (fun kv => kv.1) hperm hnd]

/-- Mapping a function that respects an elementwise relation over related
lists yields equal images. -/
theorem map_eq_of_forall₂ {P : α → α → Prop} {f : α → β}
    (hf : ∀ a b, P a b → f a = f b) :
    ∀ {l₁ l₂ : List α}, List.Forall₂ P l₁ l₂ → l₁.map f = l₂.map f := by
  intro l₁ l₂ h
  induction h with
  | nil => rfl
  | cons hx _ ih => simp [hf _ _ hx, ih]

/-! ## Claim theorems: the verification engine -/

/-- C6: for a batch id the ledger has no record of, the engine returns — it
does not raise — the FAKE verdict whose anomaly list is exactly
`["Batch ID not found on blockchain"]`, with every other derived field
Unknown/empty/zero, and the result is the same whatever the history fetch or
the off-chain store would have said (they are never consulted). -/
theorem verify_unknown_batch_short_circuit (batchId : String)
    (history : List OwnershipRecord) (offchain : Option StorageDoc) (now : Nat) :
    verify_drug batchId none history offchain now =
      { isGenuine := false, status := "FAKE", batchId := batchId,
        drugName := "Unknown", manufacturer := "Unknown", compositionHash := "",
        currentOwner := "", manufactureDate := 0, expiryDate := 0,
        transferCount := 0, ownershipHistory := [], composition := none,
        anomalies := ["Batch ID not found on blockchain"] } := rfl

/-- C1: for a batch found on the ledger whose off-chain record exists and
whose stored composition hash differs case-insensitively from the ledger's,
the verdict is FAKE with isGenuine=false — whatever the transfer count, the
expiry state, and whatever same-role or zero-address anomalies the history
adds; no later rule replaces the FAKE status. -/
theorem verify_hash_mismatch_forces_fake (batchId : String) (b : ChainRecord)
    (d : StorageDoc) (history : List OwnershipRecord) (now : Nat)
    (hmis : strLower d.compositionHash ≠ strLower b.compositionHash) :
    (verify_drug batchId (some b) history (some d) now).status = "FAKE" ∧
    (verify_drug batchId (some b) history (some d) now).isGenuine = false := by
  have hb : (strLower d.compositionHash != strLower b.compositionHash) = true :=
    bne_iff_ne.mpr hmis
  simp only [verify_drug, hb, if_true]
  constructor
  · by_cases hz : (history.filter (fun r => r.toAddr = zeroAddress)).isEmpty <;>
      simp [hz]
  · by_cases hz : (history.filter (fun r => r.toAddr = zeroAddress)).isEmpty <;>
      simp [hz]

/-- C7: a batch found on the ledger with `transferCount < 2`, no
(case-insensitive) hash mismatch, not expired, and no same-role or
zero-address anomaly in its history gets status INCOMPLETE_CHAIN — not
GENUINE — with the incomplete-chain message among its anomalies and
isGenuine=false. -/
theorem verify_incomplete_chain_verdict (batchId : String) (b : ChainRecord)
    (history : List OwnershipRecord) (offchain : Option StorageDoc) (now : Nat)
    (hcount : b.transferCount < 2)
    (hexp : ¬ b.expiryDate < now)
    (hhash : ∀ d, offchain = some d →
      strLower d.compositionHash = strLower b.compositionHash)
    (hrole : sameRoleAnomalies history = [])
    (hzero : ∀ r ∈ history, r.toAddr ≠ zeroAddress) :
    (verify_drug batchId (some b) history offchain now).status = "INCOMPLETE_CHAIN" ∧
    incompleteChainMsg ∈ (verify_drug batchId (some b) history offchain now).anomalies ∧
    (verify_drug batchId (some b) history offchain now).isGenuine = false := by
  have hz : (history.filter (fun r => r.toAddr = zeroAddress)) = [] := by
    refine List.filter_eq_nil_iff.mpr ?_
    intro r hr
    simpa using hzero r hr
  cases offchain with
  | none => simp [verify_drug, hexp, hcount, hrole, hz]
  | some d =>
    have hmis : (strLower d.compositionHash != strLower b.compositionHash) = false := by
      simpa using hhash d rfl
    simp [verify_drug, hexp, hcount, hrole, hz, hmis]

/-- A ledger snapshot with a complete chain (2 transfers) whose on-chain hash
is `"abc"`. -/
def w1rec : ChainRecord :=
  ⟨true, "Aspirin", "0xman", "abc", 0, 99999, "0xpha", 2⟩

/-- An off-chain document whose stored hash `"DEF"` mismatches `w1rec`. -/
def w1doc : StorageDoc :=
  ⟨"B-1", "Aspirin", none, "DEF", "0xman", 0, 99999, 0⟩

theorem verify_hash_mismatch_forces_fake_witness :
    (verify_drug "B-1" (some w1rec) [] (some w1doc) 100).status = "FAKE" ∧
    (verify_drug "B-1" (some w1rec) [] (some w1doc) 100).isGenuine = false :=
  verify_hash_mismatch_forces_fake "B-1" w1rec w1doc [] 100 (by decide)

/-- A fresh, unexpired ledger snapshot with a single transfer. -/
def w7rec : ChainRecord :=
  ⟨true, "Aspirin", "0xman", "abc", 0, 99999, "0xdis", 1⟩

theorem verify_incomplete_chain_verdict_witness :
    (verify_drug "B-2" (some w7rec) [] none 100).status = "INCOMPLETE_CHAIN" ∧
    incompleteChainMsg ∈ (verify_drug "B-2" (some w7rec) [] none 100).anomalies ∧
    (verify_drug "B-2" (some w7rec) [] none 100).isGenuine = false :=
  verify_incomplete_chain_verdict "B-2" w7rec [] none 100 (by decide) (by decide)
    (fun d h => nomatch h) rfl (fun r hr => nomatch hr)

/-! ## Claim theorems: custody transfer -/

/-- C5: once the batch exists and both wallet addresses resolve to registered
users, the transfer avoids the 403 illegal-transition rejection exactly when
the (fromRole, toRole) pair is one of MANUFACTURER→DISTRIBUTOR,
DISTRIBUTOR→PHARMACY, DISTRIBUTOR→DISTRIBUTOR; every other pair — including
any pair with PHARMACY as fromRole and MANUFACTURER→PHARMACY — is rejected
with a 403. -/
theorem transfer_role_transition_table (db : DB) (req : TransferRequest)
    (now : Nat) (ledgerOk : Bool) (bt : Batch) (fu tu : User)
    (hb : db.drug_batches.lookup req.batchId = some bt)
    (hf : db.users.lookup (strLower req.fromAddress) = some fu)
    (ht : db.users.lookup (strLower req.toAddress) = some tu) :
    resultIs403 (transfer_ownership db req now ledgerOk).2.1 = false ↔
      ((fu.role, tu.role) = ("MANUFACTURER", "DISTRIBUTOR") ∨
       (fu.role, tu.role) = ("DISTRIBUTOR", "PHARMACY") ∨
       (fu.role, tu.role) = ("DISTRIBUTOR", "DISTRIBUTOR")) := by
  simp only [transfer_ownership, hb, hf, ht]
  by_cases hc : valid_transfers.contains (fu.role, tu.role)
  · have hmem : (fu.role, tu.role) ∈ valid_transfers := by
      simpa using hc
    simp only [hc, if_true]
    cases ledgerOk <;>
      simp [resultIs403, valid_transfers, Prod.ext_iff] at hmem ⊢ <;>
        tauto
  · have hmem : (fu.role, tu.role) ∉ valid_transfers := by
      simpa using hc
    simp only [hc, Bool.false_eq_true, if_false]
    simp [resultIs403, valid_transfers, Prod.ext_iff] at hmem ⊢
    tauto

/-- Transfer store for the role-table witness: one batch, a manufacturer and
a distributor. -/
def w5db : DB :=
  ⟨[], [("B-1", ⟨"B-1", "Aspirin", "0xman", "0xman", "ACTIVE", 0, 9, 0, 0⟩)],
   [("0xman", ⟨"MANUFACTURER"⟩), ("0xdis", ⟨"DISTRIBUTOR"⟩)], []⟩

theorem transfer_role_transition_table_witness :
    resultIs403 (transfer_ownership w5db ⟨"B-1", "0xman", "0xdis", "Delhi"⟩ 7 true).2.1 = false ↔
      (((⟨"MANUFACTURER"⟩ : User).role, (⟨"DISTRIBUTOR"⟩ : User).role) =
         ("MANUFACTURER", "DISTRIBUTOR") ∨
       ((⟨"MANUFACTURER"⟩ : User).role, (⟨"DISTRIBUTOR"⟩ : User).role) =
         ("DISTRIBUTOR", "PHARMACY") ∨
       ((⟨"MANUFACTURER"⟩ : User).role, (⟨"DISTRIBUTOR"⟩ : User).role) =
         ("DISTRIBUTOR", "DISTRIBUTOR")) :=
  transfer_role_transition_table w5db ⟨"B-1", "0xman", "0xdis", "Delhi"⟩ 7 true
    ⟨"B-1", "Aspirin", "0xman", "0xman", "ACTIVE", 0, 9, 0, 0⟩
    ⟨"MANUFACTURER"⟩ ⟨"DISTRIBUTOR"⟩ (by decide) (by decide) (by decide)

/-- Transfer store exercising the premature owner update: batch `B-1` owned
by the manufacturer, and a registered manufacturer and pharmacy. -/
def c3db : DB :=
  ⟨[], [("B-1", ⟨"B-1", "Aspirin", "0xman", "0xman", "ACTIVE", 0, 9, 0, 0⟩)],
   [("0xman", ⟨"MANUFACTURER"⟩), ("0xpha", ⟨"PHARMACY"⟩)], []⟩

/-- C3: evaluation at the failing input.  A MANUFACTURER→PHARMACY transfer is
rejected with the 403 illegal-transition error and nothing is handed to the
ledger — but the batch record has already been mutated: `currentOwner` was
`"0xman"` before the call and is `"0xpha"` after it, because the route issues
its `update_one` before the existence and role checks run. -/
theorem transfer_rejected_but_owner_mutated :
    (transfer_ownership c3db ⟨"B-1", "0xman", "0xpha", "Delhi"⟩ 7 true).2.1 =
      .error ⟨403, "Invalid transfer: MANUFACTURER cannot transfer to PHARMACY"⟩ ∧
    (transfer_ownership c3db ⟨"B-1", "0xman", "0xpha", "Delhi"⟩ 7 true).2.2 = false ∧
    (c3db.drug_batches.lookup "B-1").map Batch.currentOwner = some "0xman" ∧
    ((transfer_ownership c3db ⟨"B-1", "0xman", "0xpha", "Delhi"⟩ 7 true).1.drug_batches.lookup
        "B-1").map Batch.currentOwner = some "0xpha" := by
  decide

/-! ## Claim theorems: registration vs. standalone validation -/

/-- C10: when no reference-standard entry exists for the submitted drug name,
registration does not fail with a not-found error: it skips composition
validation, hashes the composition, registers on the ledger and stores both
off-chain records, returning success — while the standalone
validate-composition route answers 404 for the same drug name. -/
theorem register_skips_validation_when_no_dataset (db : DB)
    (req : RegisterRequest) (now : Nat)
    (hds : db.drug_composition_dataset.lookup req.drugName = none)
    (hnew : db.drug_composition_storage.lookup req.batchId = none)
    (hman : db.users.lookup req.manufacturerAddress = some ⟨"MANUFACTURER"⟩) :
    (register_drug db req now true).2 =
      .ok ⟨req.batchId, generate_composition_hash req.composition⟩ ∧
    (register_drug db req now true).1.drug_composition_storage =
      db.drug_composition_storage ++
        [(req.batchId,
          ⟨req.batchId, req.drugName, some req.composition,
           generate_composition_hash req.composition, req.manufacturerAddress,
           req.manufactureDate, req.expiryDate, now⟩)] ∧
    (register_drug db req now true).1.drug_batches =
      db.drug_batches ++
        [(req.batchId,
          ⟨req.batchId, req.drugName, strLower req.manufacturerAddress,
           strLower req.manufacturerAddress, "ACTIVE",
           req.manufactureDate, req.expiryDate, now, now⟩)] ∧
    validate_drug_composition db req.drugName req.composition =
      .error ⟨404, "No standard composition found for drug: " ++ req.drugName⟩ := by
  refine ⟨?_, ?_, ?_, ?_⟩ <;>
    simp [register_drug, validate_drug_composition, hds, hnew, hman]

/-- A one-ingredient composition used to exercise registration. -/
def w10comp : Composition :=
  ⟨[[("name", .str "Paracetamol"), ("quantity", .str "500mg")]]⟩

/-- A store with one registered manufacturer and an empty dataset. -/
def w10db : DB := ⟨[], [], [("0xman", ⟨"MANUFACTURER"⟩)], []⟩

/-- The registration request for the witness store. -/
def w10req : RegisterRequest := ⟨"B-9", "Unknowncillin", w10comp, 10, 20, "0xman"⟩

theorem register_skips_validation_when_no_dataset_witness :
    (register_drug w10db w10req 30 true).2 =
      .ok ⟨w10req.batchId, generate_composition_hash w10req.composition⟩ ∧
    (register_drug w10db w10req 30 true).1.drug_composition_storage =
      w10db.drug_composition_storage ++
        [(w10req.batchId,
          ⟨w10req.batchId, w10req.drugName, some w10req.composition,
           generate_composition_hash w10req.composition, w10req.manufacturerAddress,
           w10req.manufactureDate, w10req.expiryDate, 30⟩)] ∧
    (register_drug w10db w10req 30 true).1.drug_batches =
      w10db.drug_batches ++
        [(w10req.batchId,
          ⟨w10req.batchId, w10req.drugName, strLower w10req.manufacturerAddress,
           strLower w10req.manufacturerAddress, "ACTIVE",
           w10req.manufactureDate, w10req.expiryDate, 30, 30⟩)] ∧
    validate_drug_composition w10db w10req.drugName w10req.composition =
      .error ⟨404, "No standard composition found for drug: " ++ w10req.drugName⟩ :=
  register_skips_validation_when_no_dataset w10db w10req 30 rfl rfl rfl

/-! ## Claim theorems: composition validation threshold -/

/-- An ingredient with the given name and a fixed quantity. -/
def namedIng (n : String) : Ingredient :=
  [("name", .str n), ("quantity", .str "1mg")]

/-- A ten-ingredient reference standard with names A through J. -/
def ref10 : Composition :=
  ⟨["A", "B", "C", "D", "E", "F", "G", "H", "I", "J"].map namedIng⟩

/-- A submission carrying exactly nine of the ten reference names. -/
def sub9 : Composition :=
  ⟨["A", "B", "C", "D", "E", "F", "G", "H", "I"].map namedIng⟩

/-- A submission carrying exactly eight of the ten reference names. -/
def sub8 : Composition :=
  ⟨["A", "B", "C", "D", "E", "F", "G", "H"].map namedIng⟩

/-- C2, counterexample: against the ten-name reference, a submission with
exactly nine of those names scores matchPercentage = 90 yet is INVALID,
because the one reference name it lacks makes `missing` non-empty and
validity requires the percentage AND an empty missing list.  The claim's
`isValid = true` is therefore false on the code. -/
theorem validate_ninety_percent_is_invalid :
    (validate_composition sub9 ref10).2.2.matchPercentage = 90 ∧
    (validate_composition sub9 ref10).1 = false := by
  constructor
  · have h : (validate_composition sub9 ref10).2.2.matchPercentage =
        ((9 : ℕ) : ℚ) / ((10 : ℕ) : ℚ) * 100 := rfl
    rw [h]; norm_num
  · have h : (validate_composition sub9 ref10).1 =
        (decide (90 ≤ (validate_composition sub9 ref10).2.2.matchPercentage) &&
          decide ((validate_composition sub9 ref10).2.2.missingIngredients.card = 0)) := rfl
    have h2 : decide
        ((validate_composition sub9 ref10).2.2.missingIngredients.card = 0) = false := by
      decide
    rw [h, h2, Bool.and_false]

/-- C2, amended: with nine of the ten reference names the score is exactly
90.0 (the `>= 90` comparison itself is inclusive) but `isValid` is false
since one reference ingredient is missing; with eight of them the score is
80.0 and `isValid` is false. -/
theorem validate_threshold_with_missing_veto :
    (validate_composition sub9 ref10).2.2.matchPercentage = 90 ∧
    (validate_composition sub9 ref10).2.2.missingIngredients = {"j"} ∧
    (validate_composition sub9 ref10).1 = false ∧
    (validate_composition sub8 ref10).2.2.matchPercentage = 80 ∧
    (validate_composition sub8 ref10).1 = false := by
  refine ⟨?_, by decide, ?_, ?_, ?_⟩
  · have h : (validate_composition sub9 ref10).2.2.matchPercentage =
        ((9 : ℕ) : ℚ) / ((10 : ℕ) : ℚ) * 100 := rfl
    rw [h]; norm_num
  · have h : (validate_composition sub9 ref10).1 =
        (decide (90 ≤ (validate_composition sub9 ref10).2.2.matchPercentage) &&
          decide ((validate_composition sub9 ref10).2.2.missingIngredients.card = 0)) := rfl
    have h2 : decide
        ((validate_composition sub9 ref10).2.2.missingIngredients.card = 0) = false := by
      decide
    rw [h, h2, Bool.and_false]
  · have h : (validate_composition sub8 ref10).2.2.matchPercentage =
        ((8 : ℕ) : ℚ) / ((10 : ℕ) : ℚ) * 100 := rfl
    rw [h]; norm_num
  · have h : (validate_composition sub8 ref10).1 =
        (decide (90 ≤ (validate_composition sub8 ref10).2.2.matchPercentage) &&
          decide ((validate_composition sub8 ref10).2.2.missingIngredients.card = 0)) := rfl
    have h2 : decide
        ((validate_composition sub8 ref10).2.2.missingIngredients.card = 0) = false := by
      decide
    rw [h, h2, Bool.and_false]

/-! ## Claim theorems: audit statistics -/

/-- A stored batch long past expiry whose off-chain hash is `"DEF"`. -/
def c9doc : StorageDoc := ⟨"B-1", "Aspirin", none, "DEF", "0xman", 0, 50, 0⟩

/-- A ledger snapshot for `c9doc`'s batch: complete chain (2 transfers) but
on-chain hash `"abc"`, mismatching the stored `"DEF"`. -/
def c9rec : ChainRecord := ⟨true, "Aspirin", "0xman", "abc", 0, 50, "0xpha", 2⟩

/-- A ledger that answers every id successfully with `c9rec`. -/
def c9ledger : String → LedgerOutcome := fun _ => .ok c9rec

/-- C9, counterexample: a batch that is expired AND has a composition-hash
mismatch — so the verification engine's status for it is FAKE, not GENUINE —
with `transferCount = 2` and a successful ledger call is NOT counted in
`drugsWithAnomalies` (the audit loop only looks at chain completeness), so
the claimed "status ≠ GENUINE OR ledger failed" characterisation is false. -/
theorem audit_ignores_engine_status :
    (get_audit_statistics [c9doc] 3 c9ledger 100).drugsWithAnomalies = 0 ∧
    (get_audit_statistics [c9doc] 3 c9ledger 100).expiredDrugs = 1 ∧
    c9ledger "B-1" = .ok c9rec ∧
    (verify_drug "B-1" (some c9rec) [] (some c9doc) 100).status = "FAKE" ∧
    (verify_drug "B-1" (some c9rec) [] (some c9doc) 100).isGenuine = false := by
  decide

/-- C9, amended: the audit counts a batch in `drugsWithAnomalies` iff the
ledger call for it raised or returned failure, or the ledger-reported
`transferCount` is below 2.  The engine's expiry/hash/role checks play no
part: the count is independent of the clock (hence of expiry), and a batch
whose ledger call succeeds with `transferCount ≥ 2` is never counted,
whatever its engine verdict would be. -/
theorem audit_anomaly_count_characterisation :
    (∀ (ledger : String → LedgerOutcome) (d : StorageDoc),
       auditAnomalyFlag ledger d = true ↔
         (ledger d.batchId = .raises ∨ ledger d.batchId = .fail ∨
          ∃ r, ledger d.batchId = .ok r ∧ r.transferCount < 2)) ∧
    (∀ (drugs : List StorageDoc) (usersCount : Nat)
       (ledger : String → LedgerOutcome) (now₁ now₂ : Nat),
       (get_audit_statistics drugs usersCount ledger now₁).drugsWithAnomalies =
         (get_audit_statistics drugs usersCount ledger now₂).drugsWithAnomalies) := by
  constructor
  · intro ledger d
    unfold auditAnomalyFlag
    cases h : ledger d.batchId with
    | raises => simp [h]
    | fail => simp [h]
    | ok r =>
      simp only [h, decide_eq_true_eq]
      constructor
      · intro hc
        exact Or.inr (Or.inr ⟨r, rfl, hc⟩)
      · rintro (hh | hh | ⟨r', hr', hc⟩)
        · exact absurd hh (by simp)
        · exact absurd hh (by simp)
        · cases hr'
          exact hc
  · intro drugs usersCount ledger now₁ now₂
    rfl

/-- A one-transfer ledger snapshot used to instantiate the audit
characterisation. -/
def w9rec : ChainRecord := ⟨true, "Aspirin", "0xman", "abc", 0, 99999, "0xdis", 1⟩

/-- A ledger answering every id with `w9rec`. -/
def w9ledger : String → LedgerOutcome := fun _ => .ok w9rec

theorem audit_anomaly_count_characterisation_witness :
    auditAnomalyFlag w9ledger c9doc = true ∧
    (get_audit_statistics [c9doc] 3 w9ledger 5).drugsWithAnomalies =
      (get_audit_statistics [c9doc] 3 w9ledger 999).drugsWithAnomalies :=
  ⟨(audit_anomaly_count_characterisation.1 w9ledger c9doc).mpr
      (Or.inr (Or.inr ⟨w9rec, rfl, by decide⟩)),
   audit_anomaly_count_characterisation.2 [c9doc] 3 w9ledger 5 999⟩

/-! ## Claim theorems: batch verification fan-out -/

/-- A well-formed ledger snapshot for batch `B-1`: unexpired, complete
chain. -/
def c8rec : ChainRecord := ⟨true, "Aspirin", "0xman", "abc", 0, 99999, "0xpha", 2⟩

/-- A verification environment where `B-1` exists and verifies GENUINE and
every other id is unknown; no database call raises. -/
def c8env : VerifyEnv :=
  ⟨fun id => if id == "B-1" then some c8rec else none,
   fun _ => [], fun _ => none, fun _ => false⟩

/-- C8: evaluation at the failing input.  Batch verification does return one
result per id, in order, and a failure on one id does not abort the rest —
but even `B-1`, whose route call succeeds with a GENUINE verdict, comes back
as an ERROR item: the loop reads `verification.isGenuine` / `.status` as
attributes of the plain dict `verify_drug` returns, which raises
`AttributeError` and is swallowed by the per-item handler.  The claimed
"an id that verifies successfully yields an item carrying that verdict's
isGenuine and status" therefore fails on every input. -/
theorem batch_verify_error_for_all_ids :
    batch_verify_drugs c8env 100 ["B-1", "missing"] =
      [⟨"B-1", false, "ERROR",
        some "AttributeError: dict object has no attribute isGenuine"⟩,
       ⟨"missing", false, "ERROR",
        some "AttributeError: dict object has no attribute isGenuine"⟩] ∧
    verify_drug_route c8env 100 "B-1" =
      .ok (verify_drug "B-1" (some c8rec) [] none 100) ∧
    (verify_drug "B-1" (some c8rec) [] none 100).status = "GENUINE" ∧
    (verify_drug "B-1" (some c8rec) [] none 100).isGenuine = true := by
  decide

/-! ## Claim theorems: canonical hashing -/

/-- Two ingredients whose names differ only by letter case. -/
def cexIngUpper : Ingredient := [("name", .str "A"), ("quantity", .str "1")]

/-- See `cexIngUpper`. -/
def cexIngLower : Ingredient := [("name", .str "a"), ("quantity", .str "2")]

/-- The composition listing the upper-cased ingredient first. -/
def cexComp1 : Composition := ⟨[cexIngUpper, cexIngLower]⟩

/-- The same two ingredients in the opposite order. -/
def cexComp2 : Composition := ⟨[cexIngLower, cexIngUpper]⟩

/-- C4, counterexample: the hash is NOT invariant under every permutation of
the ingredient list.  `normalize_composition` sorts with Python's *stable*
`sorted` keyed on the lowercased name, so two ingredients whose names agree
case-insensitively (`"A"` and `"a"`) keep their input order, and swapping
them changes the canonical string and hence the digest. -/
theorem hash_not_invariant_under_all_permutations :
    List.Perm cexComp1.ingredients cexComp2.ingredients ∧
    generate_composition_hash cexComp1 ≠ generate_composition_hash cexComp2 := by
  constructor
  · exact List.Perm.swap cexIngLower cexIngUpper []
  · decide

/-- C4, amended: the composition hash is invariant under any permutation of
the keys inside each ingredient dict (a dict's keys are pairwise distinct),
and under any permutation of the ingredient list whose lowercased names are
pairwise distinct; `verify(c, hash(c))` always holds; and equal canonical
forms give equal hashes (the converse holds only up to SHA-256 collisions,
and fails for permutations only when two names coincide case-insensitively,
per the counterexample). -/
theorem canonical_hash_invariance :
    (∀ c₁ c₂ : Composition,
        List.Forall₂ (fun i₁ i₂ => List.Perm i₁ i₂ ∧ (List.map Prod.fst i₁).Nodup)
          c₁.ingredients c₂.ingredients →
        generate_composition_hash c₁ = generate_composition_hash c₂) ∧
    (∀ c₁ c₂ : Composition, List.Perm c₁.ingredients c₂.ingredients →
        (c₁.ingredients.map ingSortKey).Nodup →
        generate_composition_hash c₁ = generate_composition_hash c₂) ∧
    (∀ c : Composition, verify_composition_hash c (generate_composition_hash c) = true) ∧
    (∀ c₁ c₂ : Composition, normalize_composition c₁ = normalize_composition c₂ →
        generate_composition_hash c₁ = generate_composition_hash c₂) := by
  refine ⟨?_, ?_, ?_, ?_⟩
  · intro c₁ c₂ h
    have hP : List.Forall₂
        (fun i₁ i₂ => ingSortKey i₁ = ingSortKey i₂ ∧ dumpIngredient i₁ = dumpIngredient i₂)
        c₁.ingredients c₂.ingredients :=
      h.imp (fun i₁ i₂ hp =>
        ⟨ingSortKey_eq_of_perm hp.1 hp.2, dumpIngredient_eq_of_perm hp.1 hp.2⟩)
    have hsorted := insort_forall₂ ingSortKey (fun a b hp => hp.1) hP
    have hmap := map_eq_of_forall₂ (f := dumpIngredient) (fun a b hp => hp.2) hsorted
    unfold generate_composition_hash normalize_composition
    rw [hmap]
  · intro c₁ c₂ hperm hnd
    unfold generate_composition_hash normalize_composition
    rw [insort_eq_of_perm ingSortKey hperm hnd]
  · intro c
    unfold verify_composition_hash
    exact beq_self_eq_true _
  · intro c₁ c₂ h
    unfold generate_composition_hash
    rw [h]

/-- A two-ingredient composition with case-insensitively distinct names. -/
def w4c1 : Composition :=
  ⟨[[("name", .str "Paracetamol"), ("quantity", .str "500mg")],
    [("name", .str "Caffeine"), ("quantity", .str "65mg")]]⟩

/-- Composition `w4c1` with the keys inside each ingredient dict permuted. -/
def w4c2 : Composition :=
  ⟨[[("quantity", .str "500mg"), ("name", .str "Paracetamol")],
    [("quantity", .str "65mg"), ("name", .str "Caffeine")]]⟩

/-- Composition `w4c1` with the ingredient list permuted. -/
def w4c3 : Composition :=
  ⟨[[("name", .str "Caffeine"), ("quantity", .str "65mg")],
    [("name", .str "Paracetamol"), ("quantity", .str "500mg")]]⟩

theorem canonical_hash_invariance_witness :
    generate_composition_hash w4c1 = generate_composition_hash w4c2 ∧
    generate_composition_hash w4c1 = generate_composition_hash w4c3 ∧
    verify_composition_hash w4c1 (generate_composition_hash w4c1) = true :=
  ⟨canonical_hash_invariance.1 w4c1 w4c2
      (List.Forall₂.cons ⟨List.Perm.swap _ _ [], by decide⟩
        (List.Forall₂.cons ⟨List.Perm.swap _ _ [], by decide⟩ List.Forall₂.nil)),
   canonical_hash_invariance.2.1 w4c1 w4c3 (List.Perm.swap _ _ []) (by decide),
   canonical_hash_invariance.2.2.1 w4c1⟩

end PharmaChain
